import Mathlib

/-!
Verification of the damage-assessment request pipeline of the
`react-router-cc-test` repository.

The embedding below is a shallow translation of the server-side worker code:

* `validateImageSignature`, `validateImageStructure` (JPEG / PNG / WebP),
  `sanitizeImageBuffer` — from `src/workers/app.ts`;
* the `POST /api/assess-damage` handler (data-URI parsing, size ceilings,
  base64 decode, validation, cache probe, the three AI stages with the
  timeout race, the final response and the error taxonomy) — from
  `src/workers/app.ts`;
* `RequestBatcher.batchRequest` — from the frontend performance module;
* `calculateConfidenceScore` — from `src/workers/api/conversation.ts`.

JS `Uint8Array` buffers are modelled as `List Nat` of byte values
(each < 256, as produced by `atob`/`charCodeAt`); JS strings are modelled as
`List Char`; JS 32-bit signed integer arithmetic (`<<`, `|`) is modelled
explicitly through `toInt32`.  Asynchronous providers are modelled as
explicit outcome parameters (`Except String _` — an error carries the
thrown `Error` message), and `Promise.race` against the timeout timer is
modelled by `raceWithTimeout`.  The cache *store* implementation
(`src/workers/cache.ts`) is not part of the visible sources; the pieces of
it that the claims need are modelled from the specification and marked as
such in their doc comments.
-/

namespace AssessPipeline

/-- JS Uint8Array buffers are modelled as lists of byte values. -/
abbrev ByteBuf := List Nat

/-- JS indexed read; out-of-range reads only ever occur behind length
guards in the translated code, so the default value is never compared
against successfully. -/
def byteAt (b : ByteBuf) (i : Nat) : Nat := b.getD i 0

/-- Return shape of validateImageSignature in src/workers/app.ts. -/
structure SignatureResult where
  valid : Bool
  detectedType : Option String
  errMsg : Option String
  deriving Repr, DecidableEq

/-- Translation of validateImageSignature (src/workers/app.ts lines 376-401):
an 8-byte minimum-length guard, then the JPEG, PNG and WebP magic-number
checks in order, else failure. -/
def validateImageSignature (b : ByteBuf) : SignatureResult :=
  if b.length < 8 then
    { valid := false, detectedType := none,
      errMsg := some "Image data too small to validate" }
  else if byteAt b 0 == 0xFF && byteAt b 1 == 0xD8 && byteAt b 2 == 0xFF then
    { valid := true, detectedType := some "image/jpeg", errMsg := none }
  else if decide (8 ≤ b.length) && byteAt b 0 == 0x89 && byteAt b 1 == 0x50
      && byteAt b 2 == 0x4E && byteAt b 3 == 0x47 && byteAt b 4 == 0x0D
      && byteAt b 5 == 0x0A && byteAt b 6 == 0x1A && byteAt b 7 == 0x0A then
    { valid := true, detectedType := some "image/png", errMsg := none }
  else if decide (12 ≤ b.length) && byteAt b 0 == 0x52 && byteAt b 1 == 0x49
      && byteAt b 2 == 0x46 && byteAt b 3 == 0x46 && byteAt b 8 == 0x57
      && byteAt b 9 == 0x45 && byteAt b 10 == 0x42 && byteAt b 11 == 0x50 then
    { valid := true, detectedType := some "image/webp", errMsg := none }
  else
    { valid := false, detectedType := none,
      errMsg := some "Unsupported or invalid image format" }

/-- Return shape of the per-format structure validators. -/
structure StructureResult where
  valid : Bool
  errMsg : Option String
  deriving Repr, DecidableEq

/-- The EOI scan of validateJPEGStructure: look for FF D9 among the last
100 bytes (JS loop from max(0, length-100) while i < length-1). -/
def jpegEOIWindowFound (b : ByteBuf) : Bool :=
  (List.range b.length).any fun i =>
    decide (b.length - 100 ≤ i) && decide (i + 1 < b.length) &&
      (byteAt b i == 0xFF) && (byteAt b (i + 1) == 0xD9)

/-- Translation of validateJPEGStructure (src/workers/app.ts lines 418-444). -/
def validateJPEGStructure (b : ByteBuf) : StructureResult :=
  if b.length < 4 then { valid := false, errMsg := some "JPEG too small" }
  else if !(byteAt b 0 == 0xFF && byteAt b 1 == 0xD8) then
    { valid := false, errMsg := some "Invalid JPEG start marker" }
  else if byteAt b (b.length - 2) == 0xFF && byteAt b (b.length - 1) == 0xD9 then
    { valid := true, errMsg := none }
  else if jpegEOIWindowFound b then
    { valid := true, errMsg := none }
  else
    { valid := false, errMsg := some "JPEG missing end marker" }

/-- Reinterpretation of a value mod 2^32 as a JS signed 32-bit integer. -/
def toInt32 (n : Nat) : Int :=
  let m := n % 4294967296
  if m < 2147483648 then (m : Int) else (m : Int) - 4294967296

/-- JS expression (b[i] << 24) | (b[i+1] << 16) | (b[i+2] << 8) | b[i+3]:
a big-endian read whose result is a signed 32-bit integer, because JS
bitwise operators work on int32.  The byte values never overlap bits, so
the chain of ors equals the signed reinterpretation of the concatenation. -/
def readInt32BE (b : ByteBuf) (i : Nat) : Int :=
  toInt32 (byteAt b i * 16777216 + byteAt b (i+1) * 65536 +
    byteAt b (i+2) * 256 + byteAt b (i+3))

/-- JS expression (b[i]) | (b[i+1] << 8) | (b[i+2] << 16) | (b[i+3] << 24):
the little-endian analogue, again a signed 32-bit result. -/
def readInt32LE (b : ByteBuf) (i : Nat) : Int :=
  toInt32 (byteAt b i + byteAt b (i+1) * 256 +
    byteAt b (i+2) * 65536 + byteAt b (i+3) * 16777216)

/-- Translation of validatePNGStructure (src/workers/app.ts lines 446-463):
33-byte minimum, IHDR chunk type at offset 12, then dimension bounds on
the (signed, because of JS bitwise semantics) 32-bit reads at offsets 16
and 20. -/
def validatePNGStructure (maxDim : Int) (b : ByteBuf) : StructureResult :=
  if b.length < 33 then { valid := false, errMsg := some "PNG too small" }
  else if !(byteAt b 12 == 0x49 && byteAt b 13 == 0x48 &&
      byteAt b 14 == 0x44 && byteAt b 15 == 0x52) then
    { valid := false, errMsg := some "PNG missing IHDR chunk" }
  else
    let width := readInt32BE b 16
    let height := readInt32BE b 20
    if width = 0 ∨ height = 0 ∨ width > maxDim ∨ height > maxDim then
      { valid := false, errMsg := some "PNG dimensions invalid or too large" }
    else { valid := true, errMsg := none }

/-- Translation of validateWebPStructure (src/workers/app.ts lines 465-475). -/
def validateWebPStructure (b : ByteBuf) : StructureResult :=
  if b.length < 20 then { valid := false, errMsg := some "WebP too small" }
  else if readInt32LE b 4 + 8 ≠ (b.length : Int) then
    { valid := false, errMsg := some "WebP file size mismatch" }
  else { valid := true, errMsg := none }

/-- Translation of validateImageStructure (src/workers/app.ts lines 403-416). -/
def validateImageStructure (maxDim : Int) (b : ByteBuf) (mimeType : String) :
    StructureResult :=
  if mimeType = "image/jpeg" then validateJPEGStructure b
  else if mimeType = "image/png" then validatePNGStructure maxDim b
  else if mimeType = "image/webp" then validateWebPStructure b
  else { valid := false, errMsg := some "Unsupported image type for structure validation" }

/-- Translation of sanitizeImageBuffer (src/workers/app.ts lines 477-488):
strip trailing zero bytes. -/
def sanitizeImageBuffer (b : ByteBuf) : ByteBuf :=
  (b.reverse.dropWhile (· == 0)).reverse

/-- Server configuration fields consumed by the assess-damage handler,
with values as produced by loadConfig in src/workers/config.ts. -/
structure Config where
  allowedTypes : List String
  maxFileSize : Nat
  maxDecodedSize : Nat
  maxDimensions : Int
  enableAutorag : Bool
  confidenceThreshold : ℚ

/-- The configuration loadConfig() yields with no environment overrides
(DEFAULT_CONFIG of src/workers/config.ts; the development overrides do not
touch these fields). -/
def defaultConfig : Config :=
  { allowedTypes := ["image/jpeg", "image/png", "image/webp"]
    maxFileSize := 52428800
    maxDecodedSize := 104857600
    maxDimensions := 8192
    enableAutorag := true
    confidenceThreshold := 7/10 }

/-- Vision provider result: the fields of visionResponse the handler reads
(description, and confidence which may be absent — JS undefined). -/
structure VisionResult where
  description : String
  confidence : Option ℚ
  deriving Repr, DecidableEq

/-- RAG provider result: the fields of ragResponse the handler reads.
Source entries are kept opaque as strings. -/
structure RagResult where
  response : String
  data : List String
  deriving Repr, DecidableEq

/-- Language-model provider result. -/
structure GenResult where
  response : String
  deriving Repr, DecidableEq

/-- The JSON body the assess-damage handler sends back, together with the
HTTP status it is sent with.  perfCached is the performance.cached field of
the body; cachedFlag is the separate top-level cached field the handler
adds on an assessment-cache hit. -/
structure ApiResponse where
  status : Nat
  success : Bool
  error : Option String
  details : Option String
  vision_analysis : Option String
  industry_sources : Option (List String)
  autorag_response : Option String
  enhanced_assessment : Option String
  confidence_score : Option ℚ
  perfCached : Option Bool
  cachedFlag : Option Bool
  deriving Repr, DecidableEq

/-- An error response: success false, no assessment payload. -/
def errResp (status : Nat) (err details : String) : ApiResponse :=
  { status := status, success := false, error := some err,
    details := some details, vision_analysis := none,
    industry_sources := none, autorag_response := none,
    enhanced_assessment := none, confidence_score := none,
    perfCached := none, cachedFlag := none }

/-- Which expensive steps a request execution actually performed:
the base64 decode, and each of the three AI provider calls. -/
structure Trace where
  decodeInvoked : Bool
  visionCalled : Bool
  ragCalled : Bool
  genCalled : Bool
  deriving Repr, DecidableEq

/-- Trace of a request rejected before the base64 decode. -/
def preDecodeTrace : Trace :=
  { decodeInvoked := false, visionCalled := false,
    ragCalled := false, genCalled := false }

/-- Trace of a request rejected after the decode but before any AI stage. -/
def postDecodeTrace : Trace :=
  { decodeInvoked := true, visionCalled := false,
    ragCalled := false, genCalled := false }

/-- Substring test, modelling JS String.prototype.includes. -/
def strContains (s pat : String) : Bool :=
  decide (List.IsInfix pat.data s.data)

/-- Translation of the catch-block error taxonomy of the assess-damage
handler (src/workers/app.ts lines 782-827): substring matching on the
thrown error message selects status, error and details. -/
def mapError (msg : String) : ApiResponse :=
  if strContains msg "AI model not found" then
    errResp 503 "AI service unavailable" "The AI vision model is temporarily unavailable"
  else if strContains msg "timeout" then
    errResp 504 "Request timeout" "The AI processing took too long to complete"
  else if strContains msg "rate limit" then
    errResp 429 "Rate limit exceeded" "Too many requests. Please try again later"
  else if strContains msg "memory" then
    errResp 507 "Insufficient resources" "The image is too large to process"
  else if strContains msg "Invalid image" || strContains msg "Corrupted image" then
    errResp 400 "Invalid image file" "The uploaded image file is corrupted or malformed"
  else if strContains msg "Image type mismatch" then
    errResp 400 "Image validation failed" "The image file does not match its declared format"
  else
    errResp 500 "Assessment failed" msg

/-- Drop a literal pattern from the front of a character list; none when
the list does not start with the pattern. -/
def dropLead : List Char → List Char → Option (List Char)
  | [], s => some s
  | _ :: _, [] => none
  | p :: ps, c :: cs => if p = c then dropLead ps cs else none

/-- The regex match of the handler,
image.match of data colon image slash [^;]+ anchored, followed by the
literal ";base64," — returns the captured MIME type. -/
def matchMime (image : List Char) : Option String :=
  match dropLead "data:image/".data image with
  | none => none
  | some rest =>
    let sub := rest.takeWhile (fun c => c ≠ ';')
    if sub.isEmpty then none
    else
      match dropLead ";base64,".data (rest.drop sub.length) with
      | none => none
      | some _ => some ("image/" ++ String.mk sub)

/-- JS image.split(',')[1]: the segment between the first and second comma;
none when the string holds no comma at all. -/
def splitSecond (image : List Char) : Option (List Char) :=
  match image.dropWhile (fun c => c ≠ ',') with
  | [] => none
  | _ :: rest => some (rest.takeWhile (fun c => c ≠ ','))

/-- Modelled from the spec: the image content hash of the cache service
(src/workers/cache.ts is not among the visible sources).  Per the spec it
is a cheap fingerprint combining the buffer length with the first and last
16 bytes; the claims only need that it is a deterministic function of the
buffer. -/
def generateImageHash (b : ByteBuf) : String :=
  toString b.length ++ ":" ++ toString (b.take 16) ++ ":" ++
    toString (b.drop (b.length - 16))

/-- Per-stage timeout race (Promise.race of the provider promise against a
setTimeout rejection): if the provider settles strictly before the timer
its outcome wins, otherwise the race yields the timer's rejection with the
given timeout error message.  settleAt none models a never-settling
provider. -/
def raceWithTimeout (settleAt : Option Nat) (timeoutMs : Nat)
    (outcome : Except String VisionResult) (timeoutMsg : String) :
    Except String VisionResult :=
  match settleAt with
  | some t => if t < timeoutMs then outcome else .error timeoutMsg
  | none => .error timeoutMsg

/-- Outcome of one handler run: the response, the execution trace, and the
assessment-cache write the run performed (key and stored value), if any. -/
abbrev RunResult := ApiResponse × Trace × Option (String × ApiResponse)

/-- The RAG query string the handler builds from the vision description. -/
def ragQueryOf (desc : String) : String :=
  "water damage classification materials assessment removal vs drying " ++
    desc ++ " IICRC S500 standards remediation protocol equipment requirements"

/-- The AI stages of the assess-damage handler (src/workers/app.ts lines
638-780), entered after validation and an assessment-cache miss: vision
(vision cache, then provider), RAG (non-fatal try/catch around cache and
provider, skipped when autorag is disabled), generation, then the final
response and the assessment-cache write.  Provider outcomes are passed in
as Except values; a .error carries the thrown message. -/
def runStages (cfg : Config) (hash : String)
    (visionCache : String → Option VisionResult)
    (vision : Except String VisionResult)
    (ragCache : String → Option RagResult)
    (rag : Except String RagResult)
    (gen : Except String GenResult) : RunResult :=
  let vres : Except String VisionResult :=
    match visionCache hash with
    | some v => .ok v
    | none => vision
  let vCalled := (visionCache hash).isNone
  match vres with
  | .error e => (mapError e,
      { decodeInvoked := true, visionCalled := vCalled,
        ragCalled := false, genCalled := false }, none)
  | .ok v =>
    let ragPair : RagResult × Bool :=
      if cfg.enableAutorag then
        match ragCache (ragQueryOf v.description) with
        | some r => (r, false)
        | none =>
          match rag with
          | .ok r => (r, true)
          | .error _ => ({ response := "", data := [] }, true)
      else ({ response := "", data := [] }, false)
    match gen with
    | .error e => (mapError e,
        { decodeInvoked := true, visionCalled := vCalled,
          ragCalled := ragPair.2, genCalled := true }, none)
    | .ok g =>
      let conf : ℚ :=
        match v.confidence with
        | some q => if q = 0 then cfg.confidenceThreshold else q
        | none => cfg.confidenceThreshold
      let finalResult : ApiResponse :=
        { status := 200, success := true, error := none, details := none,
          vision_analysis := some v.description,
          industry_sources := some ragPair.1.data,
          autorag_response :=
            if ragPair.1.response = "" then none else some ragPair.1.response,
          enhanced_assessment := some g.response,
          confidence_score := some conf,
          perfCached := some false, cachedFlag := none }
      (finalResult,
        { decodeInvoked := true, visionCalled := vCalled,
          ragCalled := ragPair.2, genCalled := true },
        some (hash, finalResult))

/-- Steps of the handler from the decoded-size ceiling on (src/workers/app.ts
lines 573-780): decoded size, signature, declared-vs-detected cross-check,
structure, sanitization, hash, assessment-cache probe (a hit is returned
with the stored body plus a top-level cached flag), then the AI stages. -/
def afterDecode (cfg : Config) (declared : String) (buffer : ByteBuf)
    (assessCache : String → Option ApiResponse)
    (visionCache : String → Option VisionResult)
    (vision : Except String VisionResult)
    (ragCache : String → Option RagResult)
    (rag : Except String RagResult)
    (gen : Except String GenResult) : RunResult :=
  if buffer.length > cfg.maxDecodedSize then
    (errResp 413 "Decoded image too large"
      "Decoded image size exceeds the configured limit", postDecodeTrace, none)
  else
    let sig := validateImageSignature buffer
    if sig.valid then
      if sig.detectedType = some declared then
        let st := validateImageStructure cfg.maxDimensions buffer declared
        if st.valid then
          let sanitized := sanitizeImageBuffer buffer
          let hash := generateImageHash sanitized
          match assessCache hash with
          | some stored =>
            ({ stored with status := 200, cachedFlag := some true },
              postDecodeTrace, none)
          | none => runStages cfg hash visionCache vision ragCache rag gen
        else
          (errResp 400 "Corrupted image file"
            (st.errMsg.getD "Image structure validation failed"),
            postDecodeTrace, none)
      else
        (errResp 400 "Image type mismatch"
          "Declared type does not match actual type", postDecodeTrace, none)
    else
      (errResp 400 "Invalid image file"
        (sig.errMsg.getD "Image file signature validation failed"),
        postDecodeTrace, none)

/-- Translation of the POST /api/assess-damage handler of
src/workers/app.ts (enhanced version), from the data-URI checks on.  The
body-shape checks preceding it are modelled by taking the image string
itself as input.  decode stands for the platform atob/charCodeAt decoding,
assessCache / visionCache / ragCache for the cache-service lookups
(modelled from the spec: a lookup returns the stored value, or none on a
miss or when caching is disabled), and vision / rag / gen for the provider
outcomes at this request. -/
def assessDamage (cfg : Config) (image : List Char)
    (decode : String → Option ByteBuf)
    (assessCache : String → Option ApiResponse)
    (visionCache : String → Option VisionResult)
    (vision : Except String VisionResult)
    (ragCache : String → Option RagResult)
    (rag : Except String RagResult)
    (gen : Except String GenResult) : RunResult :=
  if (dropLead "data:image/".data image).isNone then
    (errResp 400 "Invalid image format"
      "Image must be a valid data URI", preDecodeTrace, none)
  else
    match matchMime image with
    | none =>
      (errResp 400 "Invalid data URI format"
        "Data URI must specify MIME type and base64 encoding",
        preDecodeTrace, none)
    | some declared =>
      if !(cfg.allowedTypes.contains declared) then
        (errResp 400 "Unsupported image type"
          "Only JPEG, PNG, and WebP images are supported", preDecodeTrace, none)
      else if image.length > cfg.maxFileSize then
        (errResp 413 "Image too large"
          "Image size exceeds the configured limit", preDecodeTrace, none)
      else
        match splitSecond image with
        | none =>
          (errResp 400 "Invalid data URI format"
            "Data URI must contain base64 data after comma",
            preDecodeTrace, none)
        | some seg =>
          if seg.isEmpty then
            (errResp 400 "Invalid data URI format"
              "Data URI must contain base64 data after comma",
              preDecodeTrace, none)
          else
            match decode (String.mk seg) with
            | none =>
              (errResp 400 "Invalid base64 data"
                "Unable to decode base64 image data", postDecodeTrace, none)
            | some buffer =>
              afterDecode cfg declared buffer assessCache visionCache vision
                ragCache rag gen

/-- The pending-request map of the frontend RequestBatcher (a JS Map from
request key to the in-flight promise, identified here by a Nat). -/
abbrev PendingMap := List (String × Nat)

/-- JS Map.get on the pending map. -/
def pendingLookup (m : PendingMap) (k : String) : Option Nat :=
  (m.find? (fun kv => kv.1 == k)).map (fun kv => kv.2)

/-- Return shape of one batchRequest call: the updated pending map, the
promise handed to the caller, and whether the producer was invoked. -/
structure BatchCall where
  state : PendingMap
  promise : Nat
  producerInvoked : Bool
  deriving Repr, DecidableEq

/-- Translation of RequestBatcher.batchRequest (frontend performance
module): an existing in-flight promise for the key is returned as is;
otherwise the producer runs, its promise (fresh) is stored under the key
and returned. -/
def batchRequest (m : PendingMap) (k : String) (fresh : Nat) : BatchCall :=
  match pendingLookup m k with
  | some p => { state := m, promise := p, producerInvoked := false }
  | none => { state := (k, fresh) :: m, promise := fresh, producerInvoked := true }

/-- The finally handler batchRequest attaches: when the shared promise
settles (fulfilled or rejected), the key is deleted from the pending map. -/
def settleKey (m : PendingMap) (k : String) : PendingMap :=
  m.filter (fun kv => kv.1 != k)

/-- JS Math.round(q * 100) / 100, the two-decimal rounding of
calculateConfidenceScore; Math.round x is the floor of x + 1/2. -/
def jsRound2 (q : ℚ) : ℚ :=
  ((Int.floor (q * 100 + 1/2) : ℤ) : ℚ) / 100

/-- Translation of calculateConfidenceScore
(src/workers/api/conversation.ts lines 210-224): base 0.7, +0.1 when the
RAG response carries a nonempty sources array, then — when the prior
assessment's confidence_score is present and truthy (a 0 score is falsy in
JS and skips the branch) — blending capped at 0.95, and a final rounding
to two decimals. -/
def calculateConfidenceScore (hasSources : Bool) (prior : Option ℚ) : ℚ :=
  let base : ℚ := if hasSources then 7/10 + 1/10 else 7/10
  let blended : ℚ :=
    match prior with
    | some p => if p ≠ 0 then min (19/20) (base + p * (1/5)) else base
    | none => base
  jsRound2 blended

/-- The "leading bytes match the JPEG magic number" predicate of the spec:
FF D8 FF at offsets 0-2. -/
def matchesJpegMagic (b : ByteBuf) : Bool :=
  decide (3 ≤ b.length) && byteAt b 0 == 0xFF && byteAt b 1 == 0xD8 &&
    byteAt b 2 == 0xFF

/-- The 8-byte PNG signature predicate of the spec. -/
def matchesPngMagic (b : ByteBuf) : Bool :=
  decide (8 ≤ b.length) && byteAt b 0 == 0x89 && byteAt b 1 == 0x50 &&
    byteAt b 2 == 0x4E && byteAt b 3 == 0x47 && byteAt b 4 == 0x0D &&
    byteAt b 5 == 0x0A && byteAt b 6 == 0x1A && byteAt b 7 == 0x0A

/-- The WebP magic predicate of the spec: RIFF at bytes 0-3 and WEBP at
bytes 8-11. -/
def matchesWebpMagic (b : ByteBuf) : Bool :=
  decide (12 ≤ b.length) && byteAt b 0 == 0x52 && byteAt b 1 == 0x49 &&
    byteAt b 2 == 0x46 && byteAt b 3 == 0x46 && byteAt b 8 == 0x57 &&
    byteAt b 9 == 0x45 && byteAt b 10 == 0x42 && byteAt b 11 == 0x50

/-! Concrete request material used by the witnesses below. -/

/-- A minimal well-formed JPEG buffer: SOI, APP0 stub, EOI. -/
def jpegBuf : ByteBuf := [0xFF, 0xD8, 0xFF, 0xE0, 0x00, 0x10, 0xFF, 0xD9]

/-- Exactly the 8-byte PNG signature. -/
def pngSigBuf : ByteBuf := [0x89, 0x50, 0x4E, 0x47, 0x0D, 0x0A, 0x1A, 0x0A]

/-- The first 12 bytes of a small GIF file (GIF89a header, 50 by 50
logical screen): matches none of the three accepted magic numbers. -/
def gifBuf : ByteBuf :=
  [0x47, 0x49, 0x46, 0x38, 0x39, 0x61, 0x32, 0x00, 0x32, 0x00, 0xF7, 0x00]

/-- A 3-byte buffer that starts with the JPEG magic yet is shorter than
the 8-byte signature-validation minimum. -/
def shortJpegBuf : ByteBuf := [0xFF, 0xD8, 0xFF]

/-- A decode oracle mapping the fixed base64 payload of the witness
requests to a chosen buffer (atob itself is a platform builtin). -/
def mkDecode (b : ByteBuf) : String → Option ByteBuf :=
  fun s => if s = "AAAA" then some b else none

/-- The witness data URI declaring image/jpeg. -/
def imgJpegURI : List Char := "data:image/jpeg;base64,AAAA".data

/-- Empty assessment-cache lookup (cold cache). -/
def noAssessCache : String → Option ApiResponse := fun _ => none

/-- Empty vision-cache lookup. -/
def noVisionCache : String → Option VisionResult := fun _ => none

/-- Empty RAG-cache lookup. -/
def noRagCache : String → Option RagResult := fun _ => none

/-- A concrete vision provider response. -/
def visionVal : VisionResult :=
  { description := "wet drywall and warped flooring", confidence := some (9/10) }

/-- A successful vision outcome. -/
def visionOk : Except String VisionResult := .ok visionVal

/-- A successful RAG outcome. -/
def ragOk : Except String RagResult :=
  .ok { response := "IICRC S500 guidance", data := ["S500 section 12"] }

/-- A rejected RAG outcome (the provider threw). -/
def ragFail : Except String RagResult := .error "network down"

/-- A concrete generation provider response. -/
def genVal : GenResult := { response := "Class 2 water damage; dry in place." }

/-- A successful generation outcome. -/
def genOk : Except String GenResult := .ok genVal

/-- The PNG buffer of the C5 failing input: well-formed signature and
IHDR, declared width 0x80000001 (2147483649 as an unsigned big-endian
32-bit integer — far above the 8192 ceiling), height 100. -/
def overflowPng : ByteBuf :=
  [0x89, 0x50, 0x4E, 0x47, 0x0D, 0x0A, 0x1A, 0x0A,
   0x00, 0x00, 0x00, 0x0D,
   0x49, 0x48, 0x44, 0x52,
   0x80, 0x00, 0x00, 0x01,
   0x00, 0x00, 0x00, 0x64,
   0x08, 0x06, 0x00, 0x00, 0x00,
   0x01, 0x02, 0x03, 0x04, 0x05]

/-- An encoded payload one character over the default 50MB ceiling that is
not an image data URI. -/
def hugeImage : List Char := List.replicate 52428801 'A'

/-- The first witness run of the C1 scenario, on a cold cache. -/
def witnessRun1 : RunResult :=
  assessDamage defaultConfig imgJpegURI (mkDecode jpegBuf) (fun _ => none)
    noVisionCache (.ok visionVal) noRagCache ragOk (.ok genVal)

/-- The assessment-cache state after the first request of the C1
counterexample scenario wrote its result. -/
def secondRunCache : String → Option ApiResponse := fun h =>
  match (assessDamage defaultConfig imgJpegURI (mkDecode jpegBuf) noAssessCache
    noVisionCache visionOk noRagCache ragOk genOk).2.2 with
  | some kv => if h = kv.1 then some kv.2 else none
  | none => none

/-- matchMime only succeeds on strings that pass the startsWith check. -/
theorem matchMime_dropLead {image : List Char} {d : String}
    (h : matchMime image = some d) :
    (dropLead "data:image/".data image).isNone = false := by
  unfold matchMime at h
  cases hd : dropLead "data:image/".data image with
  | none => rw [hd] at h; exact absurd h (by simp)
  | some rest => simp

/-- Reduction of the handler to its post-decode stage: once the data-URI
format, MIME allow-list, encoded-size and base64 steps pass, the handler
is the post-decode pipeline on the decoded buffer. -/
theorem assessDamage_eq_afterDecode (cfg : Config) (image : List Char)
    (decode : String → Option ByteBuf)
    (assessCache : String → Option ApiResponse)
    (visionCache : String → Option VisionResult)
    (vision : Except String VisionResult)
    (ragCache : String → Option RagResult)
    (rag : Except String RagResult)
    (gen : Except String GenResult)
    (declared : String) (seg : List Char) (buffer : ByteBuf)
    (hmime : matchMime image = some declared)
    (hallow : cfg.allowedTypes.contains declared = true)
    (hsize : ¬ image.length > cfg.maxFileSize)
    (hseg : splitSecond image = some seg)
    (hne : seg.isEmpty = false)
    (hdec : decode (String.mk seg) = some buffer) :
    assessDamage cfg image decode assessCache visionCache vision ragCache rag gen =
      afterDecode cfg declared buffer assessCache visionCache vision ragCache rag gen := by
  have h0 := matchMime_dropLead hmime
  unfold assessDamage
  simp only [h0, Bool.false_eq_true, if_false, hmime, hallow, Bool.not_true,
    hseg, hne, hdec, if_neg hsize]

/-- A buffer matching none of the three accepted magic numbers fails
signature detection with a null detected type. -/
theorem validateImageSignature_no_magic {b : ByteBuf}
    (h1 : matchesJpegMagic b = false) (h2 : matchesPngMagic b = false)
    (h3 : matchesWebpMagic b = false) :
    (validateImageSignature b).valid = false ∧
    (validateImageSignature b).detectedType = none := by
  unfold validateImageSignature
  by_cases hlen : b.length < 8
  · simp [hlen]
  · have h3' : 3 ≤ b.length := le_trans (by norm_num) (le_of_not_lt hlen)
    have e1 : (byteAt b 0 == 0xFF && byteAt b 1 == 0xD8 && byteAt b 2 == 0xFF) = false := by
      have h1' := h1
      unfold matchesJpegMagic at h1'
      rwa [decide_eq_true h3', Bool.true_and] at h1'
    unfold matchesPngMagic at h2
    unfold matchesWebpMagic at h3
    simp [hlen, e1, h2, h3]

/-- C10: every decoded buffer shorter than 8 bytes fails signature
validation with a null detected type — even when its first three bytes are
the JPEG magic FF D8 FF — so, once the request reaches the signature step,
the endpoint answers 400 before any AI stage runs. -/
theorem short_buffer_rejected (cfg : Config) (image : List Char)
    (decode : String → Option ByteBuf)
    (assessCache : String → Option ApiResponse)
    (visionCache : String → Option VisionResult)
    (vision : Except String VisionResult)
    (ragCache : String → Option RagResult)
    (rag : Except String RagResult)
    (gen : Except String GenResult)
    (declared : String) (seg : List Char) (buffer : ByteBuf)
    (hmime : matchMime image = some declared)
    (hallow : cfg.allowedTypes.contains declared = true)
    (hsize : ¬ image.length > cfg.maxFileSize)
    (hseg : splitSecond image = some seg)
    (hne : seg.isEmpty = false)
    (hdec : decode (String.mk seg) = some buffer)
    (hlen2 : ¬ buffer.length > cfg.maxDecodedSize)
    (hshort : buffer.length < 8) :
    validateImageSignature buffer =
      { valid := false, detectedType := none,
        errMsg := some "Image data too small to validate" } ∧
    (assessDamage cfg image decode assessCache visionCache vision ragCache rag gen).1.status = 400 ∧
    (assessDamage cfg image decode assessCache visionCache vision ragCache rag gen).1.error =
      some "Invalid image file" ∧
    (assessDamage cfg image decode assessCache visionCache vision ragCache rag gen).2.1 =
      postDecodeTrace := by
  have hsig : validateImageSignature buffer =
      { valid := false, detectedType := none,
        errMsg := some "Image data too small to validate" } := by
    unfold validateImageSignature
    rw [if_pos hshort]
  rw [assessDamage_eq_afterDecode cfg image decode assessCache visionCache vision
    ragCache rag gen declared seg buffer hmime hallow hsize hseg hne hdec]
  refine ⟨hsig, ?_, ?_, ?_⟩ <;>
    simp [afterDecode, hlen2, hsig, errResp]

/-- C10 witness: a 3-byte JPEG-magic buffer carried by a concrete
image/jpeg data URI. -/
theorem short_buffer_rejected_witness :
    validateImageSignature shortJpegBuf =
      { valid := false, detectedType := none,
        errMsg := some "Image data too small to validate" } ∧
    (assessDamage defaultConfig imgJpegURI (mkDecode shortJpegBuf) noAssessCache
      noVisionCache visionOk noRagCache ragOk genOk).1.status = 400 ∧
    (assessDamage defaultConfig imgJpegURI (mkDecode shortJpegBuf) noAssessCache
      noVisionCache visionOk noRagCache ragOk genOk).1.error =
      some "Invalid image file" ∧
    (assessDamage defaultConfig imgJpegURI (mkDecode shortJpegBuf) noAssessCache
      noVisionCache visionOk noRagCache ragOk genOk).2.1 = postDecodeTrace :=
  short_buffer_rejected defaultConfig imgJpegURI (mkDecode shortJpegBuf)
    noAssessCache noVisionCache visionOk noRagCache ragOk genOk
    "image/jpeg" "AAAA".data shortJpegBuf
    (by decide) (by decide) (by decide) (by decide) (by decide) (by decide)
    (by decide) (by decide)

/-- C3: a decoded buffer whose leading bytes match none of the three
accepted magic numbers (JPEG FF D8 FF, the 8-byte PNG signature, WebP
RIFF/WEBP) fails signature detection with a null detected type, the
endpoint answers 400 with the invalid-image error, and no AI stage runs. -/
theorem invalid_signature_rejected (cfg : Config) (image : List Char)
    (decode : String → Option ByteBuf)
    (assessCache : String → Option ApiResponse)
    (visionCache : String → Option VisionResult)
    (vision : Except String VisionResult)
    (ragCache : String → Option RagResult)
    (rag : Except String RagResult)
    (gen : Except String GenResult)
    (declared : String) (seg : List Char) (buffer : ByteBuf)
    (hmime : matchMime image = some declared)
    (hallow : cfg.allowedTypes.contains declared = true)
    (hsize : ¬ image.length > cfg.maxFileSize)
    (hseg : splitSecond image = some seg)
    (hne : seg.isEmpty = false)
    (hdec : decode (String.mk seg) = some buffer)
    (hlen2 : ¬ buffer.length > cfg.maxDecodedSize)
    (h1 : matchesJpegMagic buffer = false)
    (h2 : matchesPngMagic buffer = false)
    (h3 : matchesWebpMagic buffer = false) :
    (validateImageSignature buffer).valid = false ∧
    (validateImageSignature buffer).detectedType = none ∧
    (assessDamage cfg image decode assessCache visionCache vision ragCache rag gen).1.status = 400 ∧
    (assessDamage cfg image decode assessCache visionCache vision ragCache rag gen).1.error =
      some "Invalid image file" ∧
    (assessDamage cfg image decode assessCache visionCache vision ragCache rag gen).2.1 =
      postDecodeTrace := by
  obtain ⟨hv, hd⟩ := validateImageSignature_no_magic h1 h2 h3
  rw [assessDamage_eq_afterDecode cfg image decode assessCache visionCache vision
    ragCache rag gen declared seg buffer hmime hallow hsize hseg hne hdec]
  refine ⟨hv, hd, ?_, ?_, ?_⟩ <;>
    simp [afterDecode, hlen2, hv, errResp]

/-- C3 witness: a 50 by 50 GIF header mislabeled as image/jpeg. -/
theorem invalid_signature_rejected_witness :
    (validateImageSignature gifBuf).valid = false ∧
    (validateImageSignature gifBuf).detectedType = none ∧
    (assessDamage defaultConfig imgJpegURI (mkDecode gifBuf) noAssessCache
      noVisionCache visionOk noRagCache ragOk genOk).1.status = 400 ∧
    (assessDamage defaultConfig imgJpegURI (mkDecode gifBuf) noAssessCache
      noVisionCache visionOk noRagCache ragOk genOk).1.error =
      some "Invalid image file" ∧
    (assessDamage defaultConfig imgJpegURI (mkDecode gifBuf) noAssessCache
      noVisionCache visionOk noRagCache ragOk genOk).2.1 = postDecodeTrace :=
  invalid_signature_rejected defaultConfig imgJpegURI (mkDecode gifBuf)
    noAssessCache noVisionCache visionOk noRagCache ragOk genOk
    "image/jpeg" "AAAA".data gifBuf
    (by decide) (by decide) (by decide) (by decide) (by decide) (by decide)
    (by decide) (by decide) (by decide) (by decide)

/-- C2: validation succeeds only when the detected type equals the
declared type exactly, and a valid-signature buffer whose detected type
differs from the declared one is rejected with the type-mismatch error,
HTTP 400, before any AI stage. -/
theorem type_mismatch_rejected (cfg : Config) (image : List Char)
    (decode : String → Option ByteBuf)
    (assessCache : String → Option ApiResponse)
    (visionCache : String → Option VisionResult)
    (vision : Except String VisionResult)
    (ragCache : String → Option RagResult)
    (rag : Except String RagResult)
    (gen : Except String GenResult)
    (declared : String) (seg : List Char) (buffer : ByteBuf)
    (hmime : matchMime image = some declared)
    (hallow : cfg.allowedTypes.contains declared = true)
    (hsize : ¬ image.length > cfg.maxFileSize)
    (hseg : splitSecond image = some seg)
    (hne : seg.isEmpty = false)
    (hdec : decode (String.mk seg) = some buffer) :
    ((assessDamage cfg image decode assessCache visionCache vision ragCache rag gen).1.success = true →
      (validateImageSignature buffer).detectedType = some declared) ∧
    (¬ buffer.length > cfg.maxDecodedSize →
      (validateImageSignature buffer).valid = true →
      (validateImageSignature buffer).detectedType ≠ some declared →
      (assessDamage cfg image decode assessCache visionCache vision ragCache rag gen).1.status = 400 ∧
      (assessDamage cfg image decode assessCache visionCache vision ragCache rag gen).1.error =
        some "Image type mismatch" ∧
      (assessDamage cfg image decode assessCache visionCache vision ragCache rag gen).2.1 =
        postDecodeTrace) := by
  rw [assessDamage_eq_afterDecode cfg image decode assessCache visionCache vision
    ragCache rag gen declared seg buffer hmime hallow hsize hseg hne hdec]
  constructor
  · intro hs
    by_cases hlen : buffer.length > cfg.maxDecodedSize
    · simp [afterDecode, hlen, errResp] at hs
    · by_cases hv : (validateImageSignature buffer).valid = true
      · by_cases hmatch : (validateImageSignature buffer).detectedType = some declared
        · exact hmatch
        · exfalso
          simp [afterDecode, hlen, hv, hmatch, errResp] at hs
      · exfalso
        simp [afterDecode, hlen, hv, errResp] at hs
  · intro hlen hv hmatch
    refine ⟨?_, ?_, ?_⟩ <;>
      simp [afterDecode, hlen, hv, hmatch, errResp]

/-- C2 witness: PNG-signature bytes declared as image/jpeg. -/
theorem type_mismatch_rejected_witness :
    (((assessDamage defaultConfig imgJpegURI (mkDecode pngSigBuf) noAssessCache
      noVisionCache visionOk noRagCache ragOk genOk).1.success = true →
      (validateImageSignature pngSigBuf).detectedType = some "image/jpeg") ∧
    (¬ pngSigBuf.length > defaultConfig.maxDecodedSize →
      (validateImageSignature pngSigBuf).valid = true →
      (validateImageSignature pngSigBuf).detectedType ≠ some "image/jpeg" →
      (assessDamage defaultConfig imgJpegURI (mkDecode pngSigBuf) noAssessCache
        noVisionCache visionOk noRagCache ragOk genOk).1.status = 400 ∧
      (assessDamage defaultConfig imgJpegURI (mkDecode pngSigBuf) noAssessCache
        noVisionCache visionOk noRagCache ragOk genOk).1.error =
        some "Image type mismatch" ∧
      (assessDamage defaultConfig imgJpegURI (mkDecode pngSigBuf) noAssessCache
        noVisionCache visionOk noRagCache ragOk genOk).2.1 = postDecodeTrace)) ∧
    (validateImageSignature pngSigBuf).valid = true ∧
    (validateImageSignature pngSigBuf).detectedType ≠ some "image/jpeg" :=
  ⟨type_mismatch_rejected defaultConfig imgJpegURI (mkDecode pngSigBuf)
    noAssessCache noVisionCache visionOk noRagCache ragOk genOk
    "image/jpeg" "AAAA".data pngSigBuf
    (by decide) (by decide) (by decide) (by decide) (by decide) (by decide),
   by decide, by decide⟩

/-- C5: the JS shift-and-or parse makes the PNG width a signed 32-bit
value, so a declared width of 2147483649 (high bit set, above any
ceiling) is read as the negative number -2147483647, every comparison of
the dimension guard passes, and validatePNGStructure accepts the buffer
that the claim says must be rejected. -/
theorem png_dimension_overflow_accepted :
    (2147483649 : Int) > defaultConfig.maxDimensions ∧
    readInt32BE overflowPng 16 = -2147483647 ∧
    validatePNGStructure defaultConfig.maxDimensions overflowPng =
      { valid := true, errMsg := none } ∧
    (validateImageStructure defaultConfig.maxDimensions overflowPng "image/png").valid =
      true := by decide

/-- C4: when the RAG stage throws while vision and generation succeed, the
pipeline still answers success true / HTTP 200 with empty industry
sources and the generation text as a non-empty enhanced assessment — the
RAG failure never surfaces as a request failure. -/
theorem rag_failure_nonfatal (cfg : Config) (image : List Char)
    (decode : String → Option ByteBuf)
    (assessCache : String → Option ApiResponse)
    (visionCache : String → Option VisionResult)
    (ragCache : String → Option RagResult)
    (declared : String) (seg : List Char) (buffer : ByteBuf)
    (v : VisionResult) (e : String) (g : GenResult)
    (hmime : matchMime image = some declared)
    (hallow : cfg.allowedTypes.contains declared = true)
    (hsize : ¬ image.length > cfg.maxFileSize)
    (hseg : splitSecond image = some seg)
    (hne : seg.isEmpty = false)
    (hdec : decode (String.mk seg) = some buffer)
    (hlen2 : ¬ buffer.length > cfg.maxDecodedSize)
    (hv : (validateImageSignature buffer).valid = true)
    (hmatch : (validateImageSignature buffer).detectedType = some declared)
    (hst : (validateImageStructure cfg.maxDimensions buffer declared).valid = true)
    (hcache : assessCache (generateImageHash (sanitizeImageBuffer buffer)) = none)
    (hvcache : visionCache (generateImageHash (sanitizeImageBuffer buffer)) = none)
    (hrcache : ragCache (ragQueryOf v.description) = none)
    (ha : cfg.enableAutorag = true)
    (hgen : g.response ≠ "") :
    (assessDamage cfg image decode assessCache visionCache (.ok v) ragCache (.error e) (.ok g)).1.success = true ∧
    (assessDamage cfg image decode assessCache visionCache (.ok v) ragCache (.error e) (.ok g)).1.status = 200 ∧
    (assessDamage cfg image decode assessCache visionCache (.ok v) ragCache (.error e) (.ok g)).1.industry_sources =
      some [] ∧
    (assessDamage cfg image decode assessCache visionCache (.ok v) ragCache (.error e) (.ok g)).1.enhanced_assessment =
      some g.response ∧
    (assessDamage cfg image decode assessCache visionCache (.ok v) ragCache (.error e) (.ok g)).1.enhanced_assessment ≠
      some "" := by
  rw [assessDamage_eq_afterDecode cfg image decode assessCache visionCache (.ok v)
    ragCache (.error e) (.ok g) declared seg buffer hmime hallow hsize hseg hne hdec]
  refine ⟨?_, ?_, ?_, ?_, ?_⟩ <;>
    simp [afterDecode, hlen2, hv, hmatch, hst, hcache, runStages, hvcache, ha,
      hrcache, hgen]

/-- C4 witness: a concrete JPEG request with a throwing RAG provider. -/
theorem rag_failure_nonfatal_witness :
    (assessDamage defaultConfig imgJpegURI (mkDecode jpegBuf) noAssessCache
      noVisionCache (.ok visionVal) noRagCache ragFail (.ok genVal)).1.success = true ∧
    (assessDamage defaultConfig imgJpegURI (mkDecode jpegBuf) noAssessCache
      noVisionCache (.ok visionVal) noRagCache ragFail (.ok genVal)).1.status = 200 ∧
    (assessDamage defaultConfig imgJpegURI (mkDecode jpegBuf) noAssessCache
      noVisionCache (.ok visionVal) noRagCache ragFail (.ok genVal)).1.industry_sources =
      some [] ∧
    (assessDamage defaultConfig imgJpegURI (mkDecode jpegBuf) noAssessCache
      noVisionCache (.ok visionVal) noRagCache ragFail (.ok genVal)).1.enhanced_assessment =
      some genVal.response ∧
    (assessDamage defaultConfig imgJpegURI (mkDecode jpegBuf) noAssessCache
      noVisionCache (.ok visionVal) noRagCache ragFail (.ok genVal)).1.enhanced_assessment ≠
      some "" := by
  have h := rag_failure_nonfatal defaultConfig imgJpegURI (mkDecode jpegBuf)
    noAssessCache noVisionCache noRagCache
    "image/jpeg" "AAAA".data jpegBuf visionVal "network down" genVal
    (by decide) (by decide) (by decide) (by decide) (by decide) (by decide)
    (by decide) (by decide) (by decide) (by decide) (by decide) (by decide)
    (by decide) (by decide) (by decide)
  simpa [ragFail] using h

/-- C7: when the vision provider does not settle before the per-stage
timeout, the race yields the vision-timeout rejection and the endpoint
answers HTTP 504 with error "Request timeout". -/
theorem vision_timeout_504 (cfg : Config) (image : List Char)
    (decode : String → Option ByteBuf)
    (assessCache : String → Option ApiResponse)
    (visionCache : String → Option VisionResult)
    (ragCache : String → Option RagResult)
    (rag : Except String RagResult)
    (gen : Except String GenResult)
    (declared : String) (seg : List Char) (buffer : ByteBuf)
    (settleAt : Option Nat) (timeoutMs : Nat)
    (outcome : Except String VisionResult)
    (hmime : matchMime image = some declared)
    (hallow : cfg.allowedTypes.contains declared = true)
    (hsize : ¬ image.length > cfg.maxFileSize)
    (hseg : splitSecond image = some seg)
    (hne : seg.isEmpty = false)
    (hdec : decode (String.mk seg) = some buffer)
    (hlen2 : ¬ buffer.length > cfg.maxDecodedSize)
    (hv : (validateImageSignature buffer).valid = true)
    (hmatch : (validateImageSignature buffer).detectedType = some declared)
    (hst : (validateImageStructure cfg.maxDimensions buffer declared).valid = true)
    (hcache : assessCache (generateImageHash (sanitizeImageBuffer buffer)) = none)
    (hvcache : visionCache (generateImageHash (sanitizeImageBuffer buffer)) = none)
    (hsettle : ∀ t ∈ settleAt, timeoutMs ≤ t) :
    raceWithTimeout settleAt timeoutMs outcome "AI vision analysis timeout" =
      .error "AI vision analysis timeout" ∧
    (assessDamage cfg image decode assessCache visionCache
      (raceWithTimeout settleAt timeoutMs outcome "AI vision analysis timeout")
      ragCache rag gen).1.status = 504 ∧
    (assessDamage cfg image decode assessCache visionCache
      (raceWithTimeout settleAt timeoutMs outcome "AI vision analysis timeout")
      ragCache rag gen).1.error = some "Request timeout" ∧
    (assessDamage cfg image decode assessCache visionCache
      (raceWithTimeout settleAt timeoutMs outcome "AI vision analysis timeout")
      ragCache rag gen).1.success = false := by
  have hrace : raceWithTimeout settleAt timeoutMs outcome "AI vision analysis timeout" =
      .error "AI vision analysis timeout" := by
    unfold raceWithTimeout
    cases settleAt with
    | none => rfl
    | some t =>
      have ht := hsettle t (by simp)
      simp [not_lt.mpr ht]
  have hmap : mapError "AI vision analysis timeout" =
      errResp 504 "Request timeout" "The AI processing took too long to complete" := by
    decide
  rw [assessDamage_eq_afterDecode cfg image decode assessCache visionCache
    (raceWithTimeout settleAt timeoutMs outcome "AI vision analysis timeout")
    ragCache rag gen declared seg buffer hmime hallow hsize hseg hne hdec]
  refine ⟨hrace, ?_, ?_, ?_⟩ <;>
    simp [afterDecode, hlen2, hv, hmatch, hst, hcache, runStages, hvcache,
      hrace, hmap, errResp]

/-- C7 witness: a never-settling vision provider on a concrete JPEG
request with the 45-second stage timeout. -/
theorem vision_timeout_504_witness :
    raceWithTimeout none 45000 visionOk "AI vision analysis timeout" =
      .error "AI vision analysis timeout" ∧
    (assessDamage defaultConfig imgJpegURI (mkDecode jpegBuf) noAssessCache
      noVisionCache (raceWithTimeout none 45000 visionOk "AI vision analysis timeout")
      noRagCache ragOk genOk).1.status = 504 ∧
    (assessDamage defaultConfig imgJpegURI (mkDecode jpegBuf) noAssessCache
      noVisionCache (raceWithTimeout none 45000 visionOk "AI vision analysis timeout")
      noRagCache ragOk genOk).1.error = some "Request timeout" ∧
    (assessDamage defaultConfig imgJpegURI (mkDecode jpegBuf) noAssessCache
      noVisionCache (raceWithTimeout none 45000 visionOk "AI vision analysis timeout")
      noRagCache ragOk genOk).1.success = false :=
  vision_timeout_504 defaultConfig imgJpegURI (mkDecode jpegBuf) noAssessCache
    noVisionCache noRagCache ragOk genOk "image/jpeg" "AAAA".data jpegBuf
    none 45000 visionOk
    (by decide) (by decide) (by decide) (by decide) (by decide) (by decide)
    (by decide) (by decide) (by decide) (by decide) (by decide) (by decide)
    (by simp)

/-- C6 (amended): for every request whose encoded image string exceeds the
configured ceiling the decode step is never invoked (the size check runs
strictly before decoding), and whenever such a request also passes the
data-URI format / MIME extraction / allow-list checks that precede the
size check, the endpoint answers 413 with the size error. -/
theorem oversized_encoded_rejected (cfg : Config) (image : List Char)
    (decode : String → Option ByteBuf)
    (assessCache : String → Option ApiResponse)
    (visionCache : String → Option VisionResult)
    (vision : Except String VisionResult)
    (ragCache : String → Option RagResult)
    (rag : Except String RagResult)
    (gen : Except String GenResult)
    (hbig : image.length > cfg.maxFileSize) :
    (assessDamage cfg image decode assessCache visionCache vision ragCache rag gen).2.1.decodeInvoked =
      false ∧
    (∀ declared, matchMime image = some declared →
      cfg.allowedTypes.contains declared = true →
      (assessDamage cfg image decode assessCache visionCache vision ragCache rag gen).1.status = 413 ∧
      (assessDamage cfg image decode assessCache visionCache vision ragCache rag gen).1.error =
        some "Image too large") := by
  by_cases h0 : (dropLead "data:image/".data image).isNone
  · constructor
    · simp [assessDamage, h0, preDecodeTrace]
    · intro d hd _
      have := matchMime_dropLead hd
      rw [h0] at this
      exact absurd this (by simp)
  · rw [Bool.not_eq_true] at h0
    cases hm : matchMime image with
    | none =>
      constructor
      · simp [assessDamage, h0, hm, preDecodeTrace]
      · intro d hd
        exact absurd hd (by simp)
    | some d =>
      by_cases hal : cfg.allowedTypes.contains d = true
      · have hmem : d ∈ cfg.allowedTypes := by simpa using hal
        constructor
        · simp [assessDamage, h0, hm, hmem, hbig, preDecodeTrace]
        · intro d' hd' _
          have hdd : d = d' := by injection hd'
          subst hdd
          constructor <;> simp [assessDamage, h0, hm, hmem, hbig, errResp]
      · have hnmem : d ∉ cfg.allowedTypes := by simpa using hal
        constructor
        · simp [assessDamage, h0, hm, hnmem, preDecodeTrace]
        · intro d' hd' hal'
          have hdd : d = d' := by injection hd'
          subst hdd
          exact absurd hal' hal

/-- C6 witness: an over-ceiling, well-formed image/jpeg data URI is
answered 413 without invoking decode. -/
theorem oversized_encoded_rejected_witness :
    (assessDamage { defaultConfig with maxFileSize := 10 } imgJpegURI
      (mkDecode jpegBuf) noAssessCache noVisionCache visionOk noRagCache ragOk
      genOk).2.1.decodeInvoked = false ∧
    (∀ declared, matchMime imgJpegURI = some declared →
      ({ defaultConfig with maxFileSize := 10 } : Config).allowedTypes.contains declared = true →
      (assessDamage { defaultConfig with maxFileSize := 10 } imgJpegURI
        (mkDecode jpegBuf) noAssessCache noVisionCache visionOk noRagCache ragOk
        genOk).1.status = 413 ∧
      (assessDamage { defaultConfig with maxFileSize := 10 } imgJpegURI
        (mkDecode jpegBuf) noAssessCache noVisionCache visionOk noRagCache ragOk
        genOk).1.error = some "Image too large") :=
  oversized_encoded_rejected { defaultConfig with maxFileSize := 10 } imgJpegURI
    (mkDecode jpegBuf) noAssessCache noVisionCache visionOk noRagCache ragOk
    genOk (by decide)

/-- C6 counterexample: the claim says every request whose encoded image
string exceeds the ceiling gets HTTP 413; but the format checks run before
the size check, so this over-ceiling payload is answered 400 (invalid
image format), not 413. -/
theorem oversized_encoded_counterexample :
    hugeImage.length > defaultConfig.maxFileSize ∧
    (assessDamage defaultConfig hugeImage (mkDecode jpegBuf) noAssessCache
      noVisionCache visionOk noRagCache ragOk genOk).1.status = 400 ∧
    ¬ (assessDamage defaultConfig hugeImage (mkDecode jpegBuf) noAssessCache
      noVisionCache visionOk noRagCache ragOk genOk).1.status = 413 := by
  have e : hugeImage = 'A' :: List.replicate 52428800 'A' := by
    rw [hugeImage, show (52428801 : Nat) = 52428800 + 1 from rfl, List.replicate_succ]
  have hdrop : dropLead "data:image/".data hugeImage = none := by
    rw [e]
    rfl
  have hlen : hugeImage.length = 52428801 := by
    rw [hugeImage, List.length_replicate]
  have h400 : (assessDamage defaultConfig hugeImage (mkDecode jpegBuf) noAssessCache
      noVisionCache visionOk noRagCache ragOk genOk).1.status = 400 := by
    unfold assessDamage
    rw [hdrop]
    rfl
  refine ⟨by rw [hlen]; decide, h400, by rw [h400]; decide⟩

/-- C1 (amended): with caching enabled and the first request succeeding, a
second byte-identical request is served from the assessment cache with
vision_analysis and enhanced_assessment identical to the first response;
the second response carries the top-level cached=true marker the handler
adds on a hit, while its performance.cached field keeps the stored value
false, and the first response has performance.cached=false. -/
theorem cache_idempotent_amended (cfg : Config) (image : List Char)
    (decode : String → Option ByteBuf)
    (visionCache : String → Option VisionResult)
    (ragCache : String → Option RagResult)
    (rag : Except String RagResult)
    (declared : String) (seg : List Char) (buffer : ByteBuf)
    (v : VisionResult) (g : GenResult)
    (r1 : ApiResponse) (t1 : Trace) (w1 : Option (String × ApiResponse))
    (hmime : matchMime image = some declared)
    (hallow : cfg.allowedTypes.contains declared = true)
    (hsize : ¬ image.length > cfg.maxFileSize)
    (hseg : splitSecond image = some seg)
    (hne : seg.isEmpty = false)
    (hdec : decode (String.mk seg) = some buffer)
    (hlen2 : ¬ buffer.length > cfg.maxDecodedSize)
    (hv : (validateImageSignature buffer).valid = true)
    (hmatch : (validateImageSignature buffer).detectedType = some declared)
    (hst : (validateImageStructure cfg.maxDimensions buffer declared).valid = true)
    (hvcache : visionCache (generateImageHash (sanitizeImageBuffer buffer)) = none)
    (hrun1 : assessDamage cfg image decode (fun _ => none) visionCache (.ok v)
      ragCache rag (.ok g) = (r1, t1, w1)) :
    w1 = some (generateImageHash (sanitizeImageBuffer buffer), r1) ∧
    r1.success = true ∧
    r1.perfCached = some false ∧
    r1.vision_analysis = some v.description ∧
    r1.enhanced_assessment = some g.response ∧
    (assessDamage cfg image decode
      (fun h => if h = generateImageHash (sanitizeImageBuffer buffer) then some r1 else none)
      visionCache (.ok v) ragCache rag (.ok g)).1.vision_analysis = r1.vision_analysis ∧
    (assessDamage cfg image decode
      (fun h => if h = generateImageHash (sanitizeImageBuffer buffer) then some r1 else none)
      visionCache (.ok v) ragCache rag (.ok g)).1.enhanced_assessment = r1.enhanced_assessment ∧
    (assessDamage cfg image decode
      (fun h => if h = generateImageHash (sanitizeImageBuffer buffer) then some r1 else none)
      visionCache (.ok v) ragCache rag (.ok g)).1.cachedFlag = some true ∧
    (assessDamage cfg image decode
      (fun h => if h = generateImageHash (sanitizeImageBuffer buffer) then some r1 else none)
      visionCache (.ok v) ragCache rag (.ok g)).1.perfCached = some false := by
  rw [assessDamage_eq_afterDecode cfg image decode (fun _ => none) visionCache (.ok v)
    ragCache rag (.ok g) declared seg buffer hmime hallow hsize hseg hne hdec] at hrun1
  rw [assessDamage_eq_afterDecode cfg image decode
    (fun h => if h = generateImageHash (sanitizeImageBuffer buffer) then some r1 else none)
    visionCache (.ok v) ragCache rag (.ok g) declared seg buffer hmime hallow hsize hseg hne hdec]
  simp only [afterDecode, runStages, if_neg hlen2, hv, if_true, hmatch, hst,
    hvcache] at hrun1 ⊢
  simp at hrun1
  obtain ⟨hF, hT, hW⟩ := hrun1
  subst hF
  refine ⟨hW.symm, ?_⟩
  simp [hW.symm]

/-- C1 witness: the concrete two-request scenario on a minimal JPEG. -/
theorem cache_idempotent_amended_witness :
    witnessRun1.2.2 = some (generateImageHash (sanitizeImageBuffer jpegBuf), witnessRun1.1) ∧
    witnessRun1.1.success = true ∧
    witnessRun1.1.perfCached = some false ∧
    witnessRun1.1.vision_analysis = some visionVal.description ∧
    witnessRun1.1.enhanced_assessment = some genVal.response ∧
    (assessDamage defaultConfig imgJpegURI (mkDecode jpegBuf)
      (fun h => if h = generateImageHash (sanitizeImageBuffer jpegBuf) then some witnessRun1.1 else none)
      noVisionCache (.ok visionVal) noRagCache ragOk (.ok genVal)).1.vision_analysis =
      witnessRun1.1.vision_analysis ∧
    (assessDamage defaultConfig imgJpegURI (mkDecode jpegBuf)
      (fun h => if h = generateImageHash (sanitizeImageBuffer jpegBuf) then some witnessRun1.1 else none)
      noVisionCache (.ok visionVal) noRagCache ragOk (.ok genVal)).1.enhanced_assessment =
      witnessRun1.1.enhanced_assessment ∧
    (assessDamage defaultConfig imgJpegURI (mkDecode jpegBuf)
      (fun h => if h = generateImageHash (sanitizeImageBuffer jpegBuf) then some witnessRun1.1 else none)
      noVisionCache (.ok visionVal) noRagCache ragOk (.ok genVal)).1.cachedFlag = some true ∧
    (assessDamage defaultConfig imgJpegURI (mkDecode jpegBuf)
      (fun h => if h = generateImageHash (sanitizeImageBuffer jpegBuf) then some witnessRun1.1 else none)
      noVisionCache (.ok visionVal) noRagCache ragOk (.ok genVal)).1.perfCached = some false :=
  cache_idempotent_amended defaultConfig imgJpegURI (mkDecode jpegBuf)
    noVisionCache noRagCache ragOk "image/jpeg" "AAAA".data jpegBuf visionVal genVal
    witnessRun1.1 witnessRun1.2.1 witnessRun1.2.2
    (by decide) (by decide) (by decide) (by decide) (by decide) (by decide)
    (by decide) (by decide) (by decide) (by decide) (by decide) rfl

/-- C1 counterexample: two byte-identical requests with caching enabled;
the first succeeds with performance.cached=false, the second is served
from the cache with identical content and the top-level cached=true flag —
but its performance.cached field is false, not true as the claim states. -/
theorem cached_flag_counterexample :
    (assessDamage defaultConfig imgJpegURI (mkDecode jpegBuf) noAssessCache
      noVisionCache visionOk noRagCache ragOk genOk).1.success = true ∧
    (assessDamage defaultConfig imgJpegURI (mkDecode jpegBuf) noAssessCache
      noVisionCache visionOk noRagCache ragOk genOk).1.perfCached = some false ∧
    (assessDamage defaultConfig imgJpegURI (mkDecode jpegBuf) secondRunCache
      noVisionCache visionOk noRagCache ragOk genOk).1.vision_analysis =
      (assessDamage defaultConfig imgJpegURI (mkDecode jpegBuf) noAssessCache
        noVisionCache visionOk noRagCache ragOk genOk).1.vision_analysis ∧
    (assessDamage defaultConfig imgJpegURI (mkDecode jpegBuf) secondRunCache
      noVisionCache visionOk noRagCache ragOk genOk).1.enhanced_assessment =
      (assessDamage defaultConfig imgJpegURI (mkDecode jpegBuf) noAssessCache
        noVisionCache visionOk noRagCache ragOk genOk).1.enhanced_assessment ∧
    (assessDamage defaultConfig imgJpegURI (mkDecode jpegBuf) secondRunCache
      noVisionCache visionOk noRagCache ragOk genOk).1.cachedFlag = some true ∧
    ¬ (assessDamage defaultConfig imgJpegURI (mkDecode jpegBuf) secondRunCache
      noVisionCache visionOk noRagCache ragOk genOk).1.perfCached = some true := by
  decide

/-- Deleting a key from the pending map makes a lookup of that key miss. -/
theorem pendingLookup_settleKey (m : PendingMap) (k : String) :
    pendingLookup (settleKey m k) k = none := by
  induction m with
  | nil => rfl
  | cons a t ih =>
    by_cases h : a.1 = k
    · simp only [settleKey, List.filter_cons, h] at ih ⊢
      simp [ih]
    · have hb : (a.1 != k) = true := by simp [h]
      have hf : (a.1 == k) = false := by simp [h]
      simp only [settleKey, List.filter_cons, hb, if_true] at ih ⊢
      simp only [pendingLookup, List.find?, hf] at ih ⊢
      exact ih

/-- C8: a batchRequest call while the same key is in flight returns the
already-pending promise without invoking its producer and leaves the map
unchanged; once the key settles it is removed, so the next call for that
key misses the map and invokes its producer afresh. -/
theorem batchRequest_dedup (m : PendingMap) (k : String) (p fresh fresh2 : Nat)
    (h : pendingLookup m k = some p) :
    (batchRequest m k fresh).promise = p ∧
    (batchRequest m k fresh).producerInvoked = false ∧
    (batchRequest m k fresh).state = m ∧
    pendingLookup (settleKey (batchRequest m k fresh).state k) k = none ∧
    (batchRequest (settleKey (batchRequest m k fresh).state k) k fresh2).producerInvoked = true ∧
    (batchRequest (settleKey (batchRequest m k fresh).state k) k fresh2).promise = fresh2 := by
  have hcall : batchRequest m k fresh =
      { state := m, promise := p, producerInvoked := false } := by
    unfold batchRequest
    rw [h]
  have hmiss : pendingLookup (settleKey m k) k = none := pendingLookup_settleKey m k
  have hcall2 : batchRequest (settleKey m k) k fresh2 =
      { state := (k, fresh2) :: settleKey m k, promise := fresh2,
        producerInvoked := true } := by
    unfold batchRequest
    rw [hmiss]
  refine ⟨by rw [hcall], by rw [hcall], by rw [hcall], ?_, ?_, ?_⟩ <;>
    rw [hcall] <;> simp [hmiss, hcall2]

/-- C8 witness: a concrete pending map with key "img" in flight. -/
theorem batchRequest_dedup_witness :
    (batchRequest [("img", 7)] "img" 8).promise = 7 ∧
    (batchRequest [("img", 7)] "img" 8).producerInvoked = false ∧
    (batchRequest [("img", 7)] "img" 8).state = [("img", 7)] ∧
    pendingLookup (settleKey (batchRequest [("img", 7)] "img" 8).state "img") "img" = none ∧
    (batchRequest (settleKey (batchRequest [("img", 7)] "img" 8).state "img") "img" 9).producerInvoked = true ∧
    (batchRequest (settleKey (batchRequest [("img", 7)] "img" 8).state "img") "img" 9).promise = 9 :=
  batchRequest_dedup [("img", 7)] "img" 7 8 9 (by decide)

/-- jsRound2 is monotone. -/
theorem jsRound2_mono {a b : ℚ} (h : a ≤ b) : jsRound2 a ≤ jsRound2 b := by
  unfold jsRound2
  have h1 : Int.floor (a * 100 + 1/2) ≤ Int.floor (b * 100 + 1/2) :=
    Int.floor_le_floor (by linarith)
  have h2 : ((Int.floor (a * 100 + 1/2) : ℤ) : ℚ) ≤
      ((Int.floor (b * 100 + 1/2) : ℤ) : ℚ) := by exact_mod_cast h1
  linarith

/-- C9: the conversation confidence score is base 0.7, plus 0.1 when RAG
returned sources, blended upward with a present (in-range, truthy) prior
assessment confidence and capped at 0.95; it always lies in [0.7, 0.95]. -/
theorem calculateConfidenceScore_spec (hasSources : Bool) (prior : Option ℚ)
    (hp : ∀ p, prior = some p → 0 ≤ p ∧ p ≤ 1) :
    7/10 ≤ calculateConfidenceScore hasSources prior ∧
    calculateConfidenceScore hasSources prior ≤ 19/20 ∧
    calculateConfidenceScore hasSources none ≤ calculateConfidenceScore hasSources prior ∧
    calculateConfidenceScore false none = 7/10 ∧
    calculateConfidenceScore true none = 4/5 := by
  have e70 : jsRound2 (7/10) = 7/10 := by
    have h : Int.floor ((7/10 : ℚ) * 100 + 1/2) = 70 := by
      rw [Int.floor_eq_iff]
      constructor <;> norm_num
    unfold jsRound2
    rw [h]
    norm_num
  have e80 : jsRound2 (7/10 + 1/10) = 4/5 := by
    have h : Int.floor (((7:ℚ)/10 + 1/10) * 100 + 1/2) = 80 := by
      rw [Int.floor_eq_iff]
      constructor <;> norm_num
    unfold jsRound2
    rw [h]
    norm_num
  have e95 : jsRound2 (19/20) = 19/20 := by
    have h : Int.floor ((19/20 : ℚ) * 100 + 1/2) = 95 := by
      rw [Int.floor_eq_iff]
      constructor <;> norm_num
    unfold jsRound2
    rw [h]
    norm_num
  have hbase_lb : (7/10 : ℚ) ≤ (if hasSources then (7:ℚ)/10 + 1/10 else 7/10) := by
    cases hasSources <;> norm_num
  have hbase_ub : (if hasSources then (7:ℚ)/10 + 1/10 else 7/10) ≤ 19/20 := by
    cases hasSources <;> norm_num
  have hval1 : calculateConfidenceScore false none = 7/10 := by
    simpa [calculateConfidenceScore] using e70
  have hval2 : calculateConfidenceScore true none = 4/5 := by
    simpa [calculateConfidenceScore] using e80
  rcases prior with _ | p
  · refine ⟨?_, ?_, le_refl _, hval1, hval2⟩
    · calc (7/10 : ℚ) = jsRound2 (7/10) := e70.symm
        _ ≤ _ := jsRound2_mono hbase_lb
    · calc calculateConfidenceScore hasSources none
          ≤ jsRound2 (19/20) := jsRound2_mono hbase_ub
        _ = 19/20 := e95
  · obtain ⟨hp0, hp1⟩ := hp p rfl
    by_cases hz : p = 0
    · subst hz
      have hred0 : calculateConfidenceScore hasSources (some 0) =
          jsRound2 (if hasSources then (7:ℚ)/10 + 1/10 else 7/10) := by
        simp [calculateConfidenceScore]
      have hredn : calculateConfidenceScore hasSources none =
          jsRound2 (if hasSources then (7:ℚ)/10 + 1/10 else 7/10) := by
        simp [calculateConfidenceScore]
      refine ⟨?_, ?_, ?_, hval1, hval2⟩
      · rw [hred0]
        calc (7/10 : ℚ) = jsRound2 (7/10) := e70.symm
          _ ≤ _ := jsRound2_mono hbase_lb
      · rw [hred0]
        calc jsRound2 (if hasSources then (7:ℚ)/10 + 1/10 else 7/10)
            ≤ jsRound2 (19/20) := jsRound2_mono hbase_ub
          _ = 19/20 := e95
      · rw [hred0, hredn]
    · have hred : calculateConfidenceScore hasSources (some p) =
          jsRound2 (min (19/20) ((if hasSources then (7:ℚ)/10 + 1/10 else 7/10) + p * (1/5))) := by
        simp [calculateConfidenceScore, hz]
      have hredn : calculateConfidenceScore hasSources none =
          jsRound2 (if hasSources then (7:ℚ)/10 + 1/10 else 7/10) := by
        simp [calculateConfidenceScore]
      refine ⟨?_, ?_, ?_, hval1, hval2⟩
      · rw [hred]
        calc (7/10 : ℚ) = jsRound2 (7/10) := e70.symm
          _ ≤ _ := jsRound2_mono (le_min (by norm_num) (by linarith))
      · rw [hred]
        calc jsRound2 (min (19/20) ((if hasSources then (7:ℚ)/10 + 1/10 else 7/10) + p * (1/5)))
            ≤ jsRound2 (19/20) := jsRound2_mono (min_le_left _ _)
          _ = 19/20 := e95
      · rw [hred, hredn]
        exact jsRound2_mono (le_min hbase_ub (by linarith))

/-- C9 witness: sources present and a prior confidence of one half. -/
theorem calculateConfidenceScore_spec_witness :
    7/10 ≤ calculateConfidenceScore true (some (1/2)) ∧
    calculateConfidenceScore true (some (1/2)) ≤ 19/20 ∧
    calculateConfidenceScore true none ≤ calculateConfidenceScore true (some (1/2)) ∧
    calculateConfidenceScore false none = 7/10 ∧
    calculateConfidenceScore true none = 4/5 :=
  calculateConfidenceScore_spec true (some (1/2))
    (by intro p hp; rw [Option.some.injEq] at hp; subst hp; norm_num)

end AssessPipeline

